import Mathlib

/-! Shallow embedding of the cnes NES emulator core, covering the parts of
the CPU, PPU, APU and joypad that the specification claims talk about.
Each definition is translated from the corresponding Rust source item;
`u8`/`u16` machine integers are modelled as `Nat` with explicit reductions
modulo `2^8` / `2^16` exactly where the source relies on wrapping. -/

namespace Cnes

/-! ## APU: DMC channel (src/apu/dmc.rs) -/

/-- Fields of `struct Dmc` (src/apu/dmc.rs) that the claims touch:
the IRQ latch, its enable, and the sample-length register. -/
structure Dmc where
  interrupt_flag : Bool
  interrupt_enabled_flag : Bool
  sample_length : Nat
deriving DecidableEq, Repr

/-- Source: `Dmc::interrupt` (src/apu/dmc.rs lines 54-56): returns the
latched DMC interrupt flag. -/
def Dmc.interrupt (d : Dmc) : Bool :=
  d.interrupt_flag

/-- Source: `Dmc::write_sample_length` (src/apu/dmc.rs lines 110-114).
The Rust expression is `(data as u16) << 4 + 1`, and `+` binds tighter
than `<<` in Rust, so the stored value is `data <<< (4 + 1)` truncated
to 16 bits. -/
def Dmc.write_sample_length (d : Dmc) (data : Nat) : Dmc :=
  { d with sample_length := ((data % 256) <<< (4 + 1)) % 65536 }

/-! ## APU: frame counter (src/apu/frame_counter.rs) -/

/-- Fields of `struct FrameCounter` (src/apu/frame_counter.rs) that the
claims touch: the frame-IRQ latch and the interrupt-inhibit flag. -/
structure FrameCounter where
  frame_interrupt_flag : Bool
  interrupt_inhibit_flag : Bool
deriving DecidableEq, Repr

/-- Modelled from the spec: `Apu::irq` calls `FrameCounter::frame_interrupt`,
whose definition is absent from the sources (src/apu/frame_counter.rs has
only the destructive `poll_frame_interrupt`); per the spec wording
"frame IRQ latched" it reads the latched frame-interrupt flag. -/
def FrameCounter.frame_interrupt (fc : FrameCounter) : Bool :=
  fc.frame_interrupt_flag

/-! ## APU top level (src/apu/mod.rs) -/

/-- Fields of `struct Apu` (src/apu/mod.rs) that the IRQ-line claim
touches. -/
structure Apu where
  frame_counter : FrameCounter
  dmc : Dmc
deriving DecidableEq, Repr

/-- Source: `Apu::irq` (src/apu/mod.rs lines 90-92).  Note the source
combines the two interrupt sources with `&&`. -/
def Apu.irq (a : Apu) : Bool :=
  a.frame_counter.frame_interrupt && a.dmc.interrupt

/-! ## APU: length counter (src/apu/length_counter.rs) -/

/-- Source: `struct LengthCounter` (src/apu/length_counter.rs). -/
structure LengthCounter where
  enabled_flag : Bool
  counter : Nat
  halt_flag : Bool
deriving DecidableEq, Repr

/-- Source: `LengthCounter::LENGTH_TABLE` (src/apu/length_counter.rs). -/
def LengthCounter.LENGTH_TABLE : List Nat :=
  [10, 254, 20, 2, 40, 4, 80, 6, 160, 8, 60, 10, 14, 12, 26, 14, 12, 16, 24,
   18, 48, 20, 96, 22, 192, 24, 72, 26, 16, 28, 32, 30]

/-- Source: `LengthCounter::set_halt_flag` (src/apu/length_counter.rs). -/
def LengthCounter.set_halt_flag (lc : LengthCounter) (h : Bool) : LengthCounter :=
  { lc with halt_flag := h }

/-- Source: `LengthCounter::load_if_enabled_flag` (src/apu/length_counter.rs
lines 31-35): when the channel is enabled, load the table entry at the
5-bit index; otherwise do nothing.  The callers pass `data >> 3`, always
below 32, which the `Fin 32` argument reflects. -/
def LengthCounter.load_if_enabled_flag (lc : LengthCounter) (load_val : Fin 32) :
    LengthCounter :=
  if lc.enabled_flag then
    { lc with counter := LengthCounter.LENGTH_TABLE.getD load_val.val 0 }
  else lc

/-- Source: `LengthCounter::set_enabled_flag` (src/apu/length_counter.rs
lines 38-43): record the enable bit; clearing it zeroes the counter. -/
def LengthCounter.set_enabled_flag (lc : LengthCounter) (enabled : Bool) :
    LengthCounter :=
  if enabled then { lc with enabled_flag := enabled }
  else { lc with enabled_flag := enabled, counter := 0 }

/-- Source: `LengthCounter::on_half_frame` (src/apu/length_counter.rs
lines 45-50): a zero or halted counter is left alone, otherwise it is
decremented by one. -/
def LengthCounter.on_half_frame (lc : LengthCounter) : LengthCounter :=
  if lc.counter = 0 || lc.halt_flag then lc
  else { lc with counter := lc.counter - 1 }

/-- The invariant of claim C7: a disabled channel has a zero length
counter. -/
def LengthCounter.DisabledZero (lc : LengthCounter) : Prop :=
  lc.enabled_flag = false → lc.counter = 0

instance (lc : LengthCounter) : Decidable lc.DisabledZero := by
  unfold LengthCounter.DisabledZero
  infer_instance

/-! ## Joypad (src/joypad.rs) -/

/-- Source: `enum PlayerId` (src/joypad.rs). -/
inductive PlayerId
  | P1
  | P2
deriving DecidableEq, Repr

/-- Source: `struct Joypad` (src/joypad.rs).  The two button bitmasks are
bytes (bit 0 = A, ..., bit 7 = RIGHT). -/
structure Joypad where
  strobe : Bool
  button_idx_p1 : Nat
  button_idx_p2 : Nat
  button_p1 : Nat
  button_p2 : Nat
deriving DecidableEq, Repr

/-- Source: `Joypad::new` (src/joypad.rs). -/
def Joypad.new : Joypad :=
  { strobe := false, button_idx_p1 := 0, button_idx_p2 := 0,
    button_p1 := 0, button_p2 := 0 }

/-- Source: `Joypad::write` (src/joypad.rs lines 64-74): the low bit of the
written byte sets the strobe; raising it resets both read indices. -/
def Joypad.write (j : Joypad) (data : Nat) : Joypad :=
  if data % 2 = 0 then { j with strobe := false }
  else { j with strobe := true, button_idx_p1 := 0, button_idx_p2 := 0 }

/-- Source: `Joypad::read` (src/joypad.rs lines 76-86): return the indexed
bit of the selected port and, when the strobe is low, advance that index
modulo 8. -/
def Joypad.read (j : Joypad) (id : PlayerId) : Nat × Joypad :=
  match id with
  | PlayerId.P1 =>
    let result := (j.button_p1 >>> j.button_idx_p1) &&& 1
    if j.strobe then (result, j)
    else (result, { j with button_idx_p1 := (j.button_idx_p1 + 1) % 8 })
  | PlayerId.P2 =>
    let result := (j.button_p2 >>> j.button_idx_p2) &&& 1
    if j.strobe then (result, j)
    else (result, { j with button_idx_p2 := (j.button_idx_p2 + 1) % 8 })

/-- State of the joypad after a number of consecutive reads of one port. -/
def Joypad.afterReads (j : Joypad) (id : PlayerId) : Nat → Joypad
  | 0 => j
  | n + 1 => ((j.afterReads id n).read id).2

/-! ## PPU scroll/address register (src/ppu/registers/scroll_addr.rs) -/

/-- Source: `struct ScrollAddrRegister` (src/ppu/registers/scroll_addr.rs):
current VRAM address `v`, temporary address `t`, fine-x `x` and the
first/second write toggle `w`. -/
structure ScrollAddrRegister where
  v : Nat
  t : Nat
  x : Nat
  w : Bool
deriving DecidableEq, Repr

/-- Source: constant `COARSE_X_MASK` (src/ppu/registers/scroll_addr.rs). -/
def ScrollAddrRegister.COARSE_X_MASK : Nat := 0b11111

/-- Source: constant `COARSE_Y_MASK` (src/ppu/registers/scroll_addr.rs). -/
def ScrollAddrRegister.COARSE_Y_MASK : Nat := 0x3e0

/-- Source: constant `NT_X_MASK` (src/ppu/registers/scroll_addr.rs). -/
def ScrollAddrRegister.NT_X_MASK : Nat := 0x400

/-- Source: constant `NT_Y_MASK` (src/ppu/registers/scroll_addr.rs). -/
def ScrollAddrRegister.NT_Y_MASK : Nat := 0x800

/-- Source: constant `FINE_Y_MASK` (src/ppu/registers/scroll_addr.rs). -/
def ScrollAddrRegister.FINE_Y_MASK : Nat := 0x7000

/-- Source: constant `ADDR_MIRROR` (src/ppu/registers/scroll_addr.rs). -/
def ScrollAddrRegister.ADDR_MIRROR : Nat := 0x3fff

/-- Bitwise complement of a mask inside a `u16`, i.e. the Rust `!mask`. -/
def not16 (mask : Nat) : Nat := 0xffff ^^^ mask

/-- Source: `ScrollAddrRegister::reset_toggle` (src/ppu/registers/scroll_addr.rs
lines 48-50): clear the first/second write toggle. -/
def ScrollAddrRegister.reset_toggle (r : ScrollAddrRegister) : ScrollAddrRegister :=
  { r with w := false }

/-- Source: `ScrollAddrRegister::get_addr` (src/ppu/registers/scroll_addr.rs):
the current VRAM address `v`. -/
def ScrollAddrRegister.get_addr (r : ScrollAddrRegister) : Nat :=
  r.v

/-- Source: `ScrollAddrRegister::increment_x_in_v`
(src/ppu/registers/scroll_addr.rs lines 130-137): increment coarse X,
wrapping at 31 into the horizontal-nametable bit. -/
def ScrollAddrRegister.increment_x_in_v (r : ScrollAddrRegister) : ScrollAddrRegister :=
  if r.v &&& ScrollAddrRegister.COARSE_X_MASK = 31 then
    { r with v := (r.v &&& not16 ScrollAddrRegister.COARSE_X_MASK) ^^^
                  ScrollAddrRegister.NT_X_MASK }
  else
    { r with v := r.v + 1 }

/-- Source: `ScrollAddrRegister::increment_y_in_v`
(src/ppu/registers/scroll_addr.rs lines 92-108): increment fine Y, rolling
into coarse Y with the row-29 nametable toggle and the row-31 silent wrap. -/
def ScrollAddrRegister.increment_y_in_v (r : ScrollAddrRegister) : ScrollAddrRegister :=
  if r.v &&& ScrollAddrRegister.FINE_Y_MASK ≠ ScrollAddrRegister.FINE_Y_MASK then
    { r with v := r.v + 0x1000 }
  else
    let v1 := r.v &&& not16 ScrollAddrRegister.FINE_Y_MASK
    let y := (v1 &&& ScrollAddrRegister.COARSE_Y_MASK) >>> 5
    let yv : Nat × Nat :=
      if y = 29 then (0, v1 ^^^ ScrollAddrRegister.NT_Y_MASK)
      else if y = 31 then (0, v1)
      else (y + 1, v1)
    { r with v := (yv.2 &&& not16 ScrollAddrRegister.COARSE_Y_MASK) ||| (yv.1 <<< 5) }

/-- Source: `ScrollAddrRegister::increment_addr`
(src/ppu/registers/scroll_addr.rs lines 141-144): wrapping 16-bit add of the
increment (1 or 32), then mask to the 14-bit PPU address space. -/
def ScrollAddrRegister.increment_addr (r : ScrollAddrRegister) (val : Nat) :
    ScrollAddrRegister :=
  { r with v := ((r.v + val % 256) % 65536) &&& ScrollAddrRegister.ADDR_MIRROR }

/-! ## PPU register bit layouts -/

/-- Modelled from the spec: the file src/ppu/registers/status.rs is absent
from the sources (only `mod status;` and the uses of `StatusRegister`
remain); per the spec, the PPUSTATUS byte carries VBLANK_STARTED in bit 7. -/
def StatusRegister.VBLANK_STARTED : Nat := 0x80

/-- Modelled from the spec: PPUSTATUS SPRITE_ZERO_HIT is bit 6
(src/ppu/registers/status.rs absent from the sources). -/
def StatusRegister.SPRITE_ZERO_HIT : Nat := 0x40

/-- Modelled from the spec: PPUSTATUS SPRITE_OVERFLOW is bit 5
(src/ppu/registers/status.rs absent from the sources). -/
def StatusRegister.SPRITE_OVERFLOW : Nat := 0x20

/-- Source: `MaskRegister::SHOW_BACKGROUND` (src/ppu/registers/mask.rs). -/
def MaskRegister.SHOW_BACKGROUND : Nat := 0x08

/-- Source: `MaskRegister::SHOW_SPRITES` (src/ppu/registers/mask.rs). -/
def MaskRegister.SHOW_SPRITES : Nat := 0x10

/-- Source: `ControllerRegister::VRAM_ADDR_INC` (src/ppu/registers/controller.rs). -/
def ControllerRegister.VRAM_ADDR_INC : Nat := 0x04

/-- Source: `ControllerRegister::vram_addr_increment`
(src/ppu/registers/controller.rs): 32 when the increment bit is set, else 1. -/
def ControllerRegister.vram_addr_increment (bits : Nat) : Nat :=
  if bits &&& ControllerRegister.VRAM_ADDR_INC = ControllerRegister.VRAM_ADDR_INC
  then 32 else 1

/-! ## PPU (src/ppu/mod.rs) -/

/-- Source: `enum Mirroring` (src/ppu/mod.rs). -/
inductive Mirroring
  | VERTICAL
  | HORIZONTAL
  | FOUR_SCREEN
deriving DecidableEq, Repr

/-- Fields of `struct Ppu` (src/ppu/mod.rs) that the register claims touch.
`controller`, `mask` and `status` hold the raw byte of the corresponding
bitflags register; the three memories are byte arrays modelled as
functions. -/
structure Ppu where
  controller : Nat
  mask : Nat
  status : Nat
  scroll_addr : ScrollAddrRegister
  chr_rom : Nat → Nat
  palettes_ram : Nat → Nat
  vram : Nat → Nat
  mirroring : Mirroring
  scanline : Nat
  cycle : Nat

/-- Source: `Ppu::rendering_enabled` (src/ppu/mod.rs lines 407-409): either
the background or the sprite plane is switched on in the mask register. -/
def Ppu.rendering_enabled (p : Ppu) : Prop :=
  p.mask &&& MaskRegister.SHOW_BACKGROUND = MaskRegister.SHOW_BACKGROUND ∨
  p.mask &&& MaskRegister.SHOW_SPRITES = MaskRegister.SHOW_SPRITES

instance (p : Ppu) : Decidable p.rendering_enabled := by
  unfold Ppu.rendering_enabled
  infer_instance

/-- Source: the dot/scanline advance at the end of `Ppu::tick`
(src/ppu/mod.rs lines 377-383).  No statement earlier in `tick` assigns
`cycle` or `scanline`, so the trajectory of the pair `(scanline, cycle)`
under `tick` is exactly the iteration of this map. -/
def Ppu.tick_counters : Nat × Nat → Nat × Nat
  | (scanline, cycle) =>
    if cycle ≥ 341 then ((scanline + 1) % 262, 0)
    else (scanline, cycle + 1)

/-- Source: `Ppu::read_status` (src/ppu/mod.rs lines 726-731): return the
status byte, then clear VBLANK_STARTED (bitflags `remove`, i.e. `&= !flag`
on the byte) and reset the write toggle. -/
def Ppu.read_status (p : Ppu) : Nat × Ppu :=
  let data := p.status
  (data, { p with status := p.status &&& (0xff ^^^ StatusRegister.VBLANK_STARTED),
                  scroll_addr := p.scroll_addr.reset_toggle })

/-- Source: `Ppu::increment_vram_addr` (src/ppu/mod.rs lines 755-762):
during enabled rendering on a visible or pre-render scanline both coarse X
and fine Y are incremented, otherwise the address grows by 1 or 32 as
selected by the controller bit. -/
def Ppu.increment_vram_addr (p : Ppu) : Ppu :=
  if p.rendering_enabled ∧ (p.scanline = 261 ∨ p.scanline ≤ 239) then
    { p with scroll_addr := (p.scroll_addr.increment_x_in_v).increment_y_in_v }
  else
    { p with scroll_addr :=
        p.scroll_addr.increment_addr (ControllerRegister.vram_addr_increment p.controller) }

/-- Source: `Ppu::vram_mirror_addr` (src/ppu/mod.rs lines 701-712): map a
0x2000..=0x3eff address to an index into the 2 KiB VRAM according to the
mirroring tag. -/
def Ppu.vram_mirror_addr (p : Ppu) (addr : Nat) : Nat :=
  let mirrored := addr &&& 0x2fff
  let vram_index := mirrored - 0x2000
  let name_table := vram_index / 0x400
  match p.mirroring, name_table with
  | Mirroring.VERTICAL, 2 => vram_index - 0x800
  | Mirroring.VERTICAL, 3 => vram_index - 0x800
  | Mirroring.HORIZONTAL, 1 => vram_index - 0x400
  | Mirroring.HORIZONTAL, 2 => vram_index - 0x400
  | Mirroring.HORIZONTAL, 3 => vram_index - 0x800
  | _, _ => vram_index

/-- Source: `Ppu::write_to_data` (src/ppu/mod.rs lines 764-791): read the
current address, increment it, then dispatch on the address range: the
pattern-table range 0x0000..=0x1fff only logs a warning, nametable space
writes mirrored VRAM, palette space writes palette RAM with the
0x3f10/14/18/1c mirrors, and anything above 0x3fff only logs. -/
def Ppu.write_to_data (p : Ppu) (data : Nat) : Ppu :=
  let addr := p.scroll_addr.get_addr
  let p1 := p.increment_vram_addr
  if addr ≤ 0x1fff then
    p1
  else if addr ≤ 0x3eff then
    { p1 with vram := Function.update p1.vram (p1.vram_mirror_addr addr) (data % 256) }
  else if addr ≤ 0x3fff then
    let a := addr &&& 0x3f1f
    if a = 0x3f10 ∨ a = 0x3f14 ∨ a = 0x3f18 ∨ a = 0x3f1c then
      { p1 with palettes_ram := Function.update p1.palettes_ram (a - 0x3f00 - 0x10) (data % 256) }
    else
      { p1 with palettes_ram := Function.update p1.palettes_ram (a - 0x3f00) (data % 256) }
  else
    p1

/-! ## CPU (src/cpu/mod.rs) -/

/-- Source: `CpuFlags::CARRY` (src/cpu/mod.rs). -/
def CpuFlags.CARRY : Nat := 0x01

/-- Source: `CpuFlags::ZERO` (src/cpu/mod.rs). -/
def CpuFlags.ZERO : Nat := 0x02

/-- Source: `CpuFlags::NEGATIVE` (src/cpu/mod.rs). -/
def CpuFlags.NEGATIVE : Nat := 0x80

/-- Source: `CpuFlags::OVERFLOW` (src/cpu/mod.rs). -/
def CpuFlags.OVERFLOW : Nat := 0x40

/-- Source: constant `STACK` (src/cpu/mod.rs): page-one base of the stack. -/
def STACK : Nat := 0x0100

/-- Fields of `struct Cpu` (src/cpu/mod.rs) that the CPU claims touch,
together with the bus memory it owns.  `ram` is the 2 KiB `Bus::cpu_vram`
and `prg_rom` the 32 KiB PRG window, both as byte functions; `clocks`
counts the calls to `Bus::clock` so that cycle counts are observable. -/
structure Cpu where
  register_a : Nat
  register_x : Nat
  register_y : Nat
  status : Nat
  program_counter : Nat
  stack_pointer : Nat
  ram : Nat → Nat
  prg_rom : Nat → Nat
  brk_flag : Bool
  clocks : Nat

/-- Source: `Bus::mem_read` (src/bus.rs), restricted to the RAM arm
(`0x0000..=0x1fff`, mirrored every 2 KiB) and the PRG-ROM arm
(`0x8000..=0xffff`); the peripheral-register arms are not touched by the
CPU claims settled here and yield the default 0 of the logging arms. -/
def Cpu.mem_read (c : Cpu) (addr : Nat) : Nat :=
  let a := addr % 65536
  if a ≤ 0x1fff then c.ram (a &&& 0x07ff) % 256
  else if 0x8000 ≤ a then c.prg_rom (a - 0x8000) % 256
  else 0

/-- Source: `Bus::mem_write` (src/bus.rs), restricted to the RAM arm; writes
to ROM and to the unmodelled register arms are discarded, as the logging
arms of the source do. -/
def Cpu.mem_write (c : Cpu) (addr : Nat) (data : Nat) : Cpu :=
  let a := addr % 65536
  if a ≤ 0x1fff then
    { c with ram := Function.update c.ram (a &&& 0x07ff) (data % 256) }
  else c

/-- Source: `Cpu::stack_push` (src/cpu/mod.rs lines 646-649): write at
`STACK + SP`, then decrement SP wrapping modulo 256. -/
def Cpu.stack_push (c : Cpu) (data : Nat) : Cpu :=
  let c1 := c.mem_write (STACK + c.stack_pointer) data
  { c1 with stack_pointer := (c1.stack_pointer + 255) % 256 }

/-- Source: `Cpu::stack_pop` (src/cpu/mod.rs lines 658-661): increment SP
wrapping modulo 256, then read at `STACK + SP`. -/
def Cpu.stack_pop (c : Cpu) : Nat × Cpu :=
  let c1 := { c with stack_pointer := (c.stack_pointer + 1) % 256 }
  (c1.mem_read (STACK + c1.stack_pointer), c1)

/-- Source: `Cpu::update_zero_and_negative_flags` (src/cpu/mod.rs
lines 1018-1030): set or clear Z and N from the byte result (bitflags
`insert` is `|= flag`, `remove` is `&= !flag`). -/
def Cpu.update_zero_and_negative_flags (c : Cpu) (result : Nat) : Cpu :=
  let s1 := if result = 0 then c.status ||| CpuFlags.ZERO
            else c.status &&& (0xff ^^^ CpuFlags.ZERO)
  let s2 := if result &&& 0x80 ≠ 0 then s1 ||| CpuFlags.NEGATIVE
            else s1 &&& (0xff ^^^ CpuFlags.NEGATIVE)
  { c with status := s2 }

/-- Source: `Cpu::pha` (src/cpu/mod.rs lines 624-626): push the
accumulator. -/
def Cpu.pha (c : Cpu) : Cpu :=
  c.stack_push c.register_a

/-- Source: `Cpu::pla` (src/cpu/mod.rs lines 635-638): pop into the
accumulator and update Z/N. -/
def Cpu.pla (c : Cpu) : Cpu :=
  let vc := c.stack_pop
  let c1 := { vc.2 with register_a := vc.1 }
  c1.update_zero_and_negative_flags c1.register_a

/-- Source: the bitflags `status.contains(flag)` test used by the branch
dispatch of `Cpu::execute_instruction` (src/cpu/mod.rs). -/
def Cpu.containsFlag (c : Cpu) (flag : Nat) : Prop :=
  c.status &&& flag = flag

instance (c : Cpu) (flag : Nat) : Decidable (c.containsFlag flag) := by
  unfold Cpu.containsFlag
  infer_instance

/-- Source: `Cpu::branch` (src/cpu/mod.rs lines 949-954): read the signed
8-bit displacement at PC and add it (sign-extended to 16 bits, wrapping) to
PC + 1. -/
def Cpu.branch (c : Cpu) : Cpu :=
  let offset := c.mem_read c.program_counter
  let offset16 := if offset < 128 then offset else offset + 0xff00
  { c with program_counter := (c.program_counter + 1 + offset16) % 65536 }

/-- Modelled from the spec: the per-opcode table `src/cpu/opcodes.rs`
referenced by `mod opcodes;` in src/cpu/mod.rs is absent from the sources
(only the older partial crate-level table survives, which does list
BRK as length 1, 7 cycles).  Entries `(length, base cycles)` follow the
spec: "for each opcode the interpreter knows mnemonic, base byte length,
base cycle count"; documented 6502 values are BRK 1/7, PHA 1/3, PLA 1/4
and all conditional branches 2/2.  Only the opcodes exercised by the
claims are listed; the lookup is `None` otherwise, mirroring the fatal
`expect` of the source on an opcode missing from its table. -/
def OPCODES_MAP (code : Nat) : Option (Nat × Nat) :=
  match code with
  | 0x00 => some (1, 7)
  | 0x48 => some (1, 3)
  | 0x68 => some (1, 4)
  | 0x90 => some (2, 2)
  | 0xb0 => some (2, 2)
  | 0xf0 => some (2, 2)
  | 0x30 => some (2, 2)
  | 0xd0 => some (2, 2)
  | 0x10 => some (2, 2)
  | 0x50 => some (2, 2)
  | 0x70 => some (2, 2)
  | _ => none

/-- Source: the per-opcode effect dispatch of `Cpu::execute_instruction`
(src/cpu/mod.rs lines 248-527) for the modelled opcodes: the BRK arm only
sets `brk_flag` (line 457-459, "TODO" in the source), the stack arms call
`pha`/`pla`, and each branch arm calls `branch` when its flag condition
holds. -/
def Cpu.opcode_effect (c : Cpu) (code : Nat) : Cpu :=
  if code = 0x48 then c.pha
  else if code = 0x68 then c.pla
  else if code = 0x00 then { c with brk_flag := true }
  else if code = 0x90 then (if c.containsFlag CpuFlags.CARRY then c else c.branch)
  else if code = 0xb0 then (if c.containsFlag CpuFlags.CARRY then c.branch else c)
  else if code = 0xf0 then (if c.containsFlag CpuFlags.ZERO then c.branch else c)
  else if code = 0x30 then (if c.containsFlag CpuFlags.NEGATIVE then c.branch else c)
  else if code = 0xd0 then (if c.containsFlag CpuFlags.ZERO then c else c.branch)
  else if code = 0x10 then (if c.containsFlag CpuFlags.NEGATIVE then c else c.branch)
  else if code = 0x50 then (if c.containsFlag CpuFlags.OVERFLOW then c else c.branch)
  else if code = 0x70 then (if c.containsFlag CpuFlags.OVERFLOW then c.branch else c)
  else c

/-- Source: `Cpu::execute_instruction` (src/cpu/mod.rs lines 241-536):
fetch the opcode byte and advance PC; remember PC to detect jumps; run the
per-opcode effect; if PC is unchanged advance it by `length - 1`; clock
the bus `cycles` times.  Returns `none` when the opcode is missing from
the table (the source panics there). -/
def Cpu.execute_instruction (c : Cpu) : Option Cpu :=
  let code := c.mem_read c.program_counter
  let c1 := { c with program_counter := (c.program_counter + 1) % 65536 }
  let pcBefore := c1.program_counter
  match OPCODES_MAP code with
  | none => none
  | some lenCycles =>
    let c2 := c1.opcode_effect code
    let c3 :=
      if pcBefore = c2.program_counter then
        { c2 with program_counter := (c2.program_counter + (lenCycles.1 - 1)) % 65536 }
      else c2
    some { c3 with clocks := c3.clocks + lenCycles.2 }

/-! ## Concrete machine states used as inputs for the claims -/

/-- A CPU about to execute BRK (opcode 0x00) at PC = 0x0200, RESET-like
otherwise; the IRQ/BRK vector bytes in PRG-ROM point at 0x1234 so that a
vector load would be visible. -/
def cpuBrk : Cpu :=
  { register_a := 0, register_x := 0, register_y := 0,
    status := 0x24, program_counter := 0x0200, stack_pointer := 0xfd,
    ram := fun a => if a = 0x0200 then 0x00 else 0,
    prg_rom := fun a => if a = 0x7ffe then 0x34 else if a = 0x7fff then 0x12 else 0,
    brk_flag := false, clocks := 0 }

/-- A CPU about to execute a taken BCS (opcode 0xb0, carry set) at
PC = 0x0200 whose displacement byte is 0xff (-1): the branch target is the
displacement byte itself at 0x0201. -/
def cpuBcs : Cpu :=
  { register_a := 0, register_x := 0, register_y := 0,
    status := 0x25, program_counter := 0x0200, stack_pointer := 0xfd,
    ram := fun a => if a = 0x0200 then 0xb0 else if a = 0x0201 then 0xff else 0,
    prg_rom := fun _ => 0,
    brk_flag := false, clocks := 0 }

/-- A CPU used to witness the PHA/PLA round trip, with the stack pointer at
0 so that the push wraps it to 0xff. -/
def cpuStack : Cpu :=
  { register_a := 0x50, register_x := 0, register_y := 0,
    status := 0x24, program_counter := 0x0300, stack_pointer := 0x00,
    ram := fun _ => 0, prg_rom := fun _ => 0,
    brk_flag := false, clocks := 0 }

/-- A joypad with only button B (bit 1) pressed on port 1, strobe low and
the read index reset, as left by a strobe-high / strobe-low write pair. -/
def joypadB : Joypad :=
  { strobe := false, button_idx_p1 := 0, button_idx_p2 := 0,
    button_p1 := 0x02, button_p2 := 0 }

/-- A length counter of an enabled, non-halted channel with count 5. -/
def lcEnabled : LengthCounter :=
  { enabled_flag := true, counter := 5, halt_flag := false }

/-- A PPU whose VRAM address `v` sits in pattern-table space (0x1000 ≤
0x1fff), with rendering disabled and the controller increment bit clear. -/
def ppuPattern : Ppu :=
  { controller := 0, mask := 0, status := 0,
    scroll_addr := { v := 0x1000, t := 0, x := 0, w := true },
    chr_rom := fun _ => 0, palettes_ram := fun _ => 0, vram := fun _ => 0,
    mirroring := Mirroring.VERTICAL, scanline := 241, cycle := 0 }

/-! ## Theorems -/

/-- C1: the claim states the IRQ line is asserted iff DMC IRQ latched OR
frame IRQ latched, and that one source alone suffices.  On the code
(`Apu::irq` uses `&&`) each source alone leaves the line deasserted; only
both latched together assert it. -/
theorem apu_irq_misses_lone_interrupt_sources :
    Apu.irq { frame_counter := { frame_interrupt_flag := false, interrupt_inhibit_flag := false },
              dmc := { interrupt_flag := true, interrupt_enabled_flag := true, sample_length := 0 } }
      = false ∧
    Apu.irq { frame_counter := { frame_interrupt_flag := true, interrupt_inhibit_flag := false },
              dmc := { interrupt_flag := false, interrupt_enabled_flag := true, sample_length := 0 } }
      = false ∧
    Apu.irq { frame_counter := { frame_interrupt_flag := true, interrupt_inhibit_flag := false },
              dmc := { interrupt_flag := true, interrupt_enabled_flag := true, sample_length := 0 } }
      = true := by
  decide

/-- C2: the claim states BRK pushes PC+1 and the status byte and loads PC
from the 0xFFFE vector (0x1234 here).  On the code the BRK arm only sets
`brk_flag`: PC ends at 0x0201 (the padding byte), the stack pointer and
the RAM are untouched, and the vector is never consulted. -/
theorem cpu_brk_opcode_is_a_stub :
    (Cpu.execute_instruction cpuBrk).map Cpu.program_counter = some 0x0201 ∧
    (Cpu.execute_instruction cpuBrk).map Cpu.stack_pointer = some 0xfd ∧
    (Cpu.execute_instruction cpuBrk).map Cpu.brk_flag = some true ∧
    (Cpu.execute_instruction cpuBrk).map Cpu.ram = some cpuBrk.ram ∧
    (0x0201 : Nat) ≠ 0x1234 := by
  refine ⟨by decide, by decide, by decide, rfl, by decide⟩

set_option maxRecDepth 4096 in
/-- C3: the claim states the dot counter stays in 0..340 and a scanline
consumes exactly 341 ticks.  On the code (`cycle >= 341` reset test after
an unconditional increment) the dot value 341 is reached: ticking from dot
340 yields dot 341, 341 ticks from (0,0) do not complete the scanline, and
the next scanline begins only after 342 ticks. -/
theorem ppu_scanline_consumes_342_ticks :
    Ppu.tick_counters (0, 340) = (0, 341) ∧
    Ppu.tick_counters^[341] (0, 0) = (0, 341) ∧
    Ppu.tick_counters^[342] (0, 0) = (1, 0) := by
  decide

/-- C4: the claim states that PC advance must respect a taken branch even
when the branch target numerically equals the PC value used for jump
detection.  On the code, a taken BCS with displacement 0xff (-1) branches
to its own operand byte 0x0201; the source detects jumps by comparing PC
before and after the effect, sees no difference, and advances PC to
0x0202, while the branch semantics (next PC plus signed displacement)
demand 0x0201.  The base cycle count (2) is honoured. -/
theorem cpu_taken_branch_to_operand_byte_misadvances :
    (Cpu.execute_instruction cpuBcs).map Cpu.program_counter = some 0x0202 ∧
    (Cpu.execute_instruction cpuBcs).map Cpu.clocks = some 2 ∧
    (0x0200 + 2 + 0xffff) % 65536 = 0x0201 ∧
    (0x0202 : Nat) ≠ 0x0201 := by
  decide

/-- C5: the claim states a write of L to $4013 stores L*16 + 1.  On the
code (`(data as u16) << 4 + 1`, parsed as a shift by 5) writing L = 1
stores 32, not 17. -/
theorem dmc_write_sample_length_shifts_by_five :
    (Dmc.write_sample_length
        { interrupt_flag := false, interrupt_enabled_flag := false, sample_length := 0 }
        1).sample_length = 32 ∧
    (32 : Nat) ≠ 1 * 16 + 1 := by
  decide

/-- C6 counterexample: the claim states every read after the eighth returns
1 until the strobe is raised.  With no buttons pressed, after a
strobe-high then strobe-low write and eight reads, the ninth read of port
1 returns 0 (bit 0 of the mask again), not 1. -/
theorem joypad_ninth_read_repeats_bit_zero :
    ((((Joypad.new.write 1).write 0).afterReads PlayerId.P1 8).read PlayerId.P1).1 = 0 ∧
    (0 : Nat) ≠ 1 := by
  decide

/-- Helper: with the strobe low, reads of port 1 keep the strobe low, keep
the button mask, and step the read index from 0 to k mod 8 after k
reads. -/
theorem Joypad.afterReads_p1_state (j : Joypad) (hs : j.strobe = false)
    (hi : j.button_idx_p1 = 0) (k : Nat) :
    (j.afterReads PlayerId.P1 k).strobe = false ∧
    (j.afterReads PlayerId.P1 k).button_p1 = j.button_p1 ∧
    (j.afterReads PlayerId.P1 k).button_idx_p1 = k % 8 := by
  induction k with
  | zero => exact ⟨hs, rfl, by simpa [Joypad.afterReads] using hi⟩
  | succ n ih =>
    obtain ⟨h1, h2, h3⟩ := ih
    refine ⟨?_, ?_, ?_⟩ <;>
      simp [Joypad.afterReads, Joypad.read, h1, h2, h3]

/-- Helper: with the strobe low, reads of port 2 keep the strobe low, keep
the button mask, and step the read index from 0 to k mod 8 after k
reads. -/
theorem Joypad.afterReads_p2_state (j : Joypad) (hs : j.strobe = false)
    (hi : j.button_idx_p2 = 0) (k : Nat) :
    (j.afterReads PlayerId.P2 k).strobe = false ∧
    (j.afterReads PlayerId.P2 k).button_p2 = j.button_p2 ∧
    (j.afterReads PlayerId.P2 k).button_idx_p2 = k % 8 := by
  induction k with
  | zero => exact ⟨hs, rfl, by simpa [Joypad.afterReads] using hi⟩
  | succ n ih =>
    obtain ⟨h1, h2, h3⟩ := ih
    refine ⟨?_, ?_, ?_⟩ <;>
      simp [Joypad.afterReads, Joypad.read, h1, h2, h3]

/-- C6 amended: for each port, with the strobe low and that port's read
index reset, the (k+1)-th read of the port returns bit (k mod 8) of its
pressed-button mask: the first eight reads walk bits 0..7 in order and
later reads wrap around modulo 8 instead of returning constant 1. -/
theorem joypad_reads_cycle_modulo_eight (j : Joypad) (k : Nat)
    (hs : j.strobe = false) (hi1 : j.button_idx_p1 = 0)
    (hi2 : j.button_idx_p2 = 0) :
    ((j.afterReads PlayerId.P1 k).read PlayerId.P1).1 =
      (j.button_p1 >>> (k % 8)) &&& 1 ∧
    ((j.afterReads PlayerId.P2 k).read PlayerId.P2).1 =
      (j.button_p2 >>> (k % 8)) &&& 1 := by
  constructor
  · obtain ⟨h1, h2, h3⟩ := Joypad.afterReads_p1_state j hs hi1 k
    cases hr : ((j.afterReads PlayerId.P1 k).read PlayerId.P1)
    simp [Joypad.read, h1] at hr
    simp [← hr.1, h2, h3]
  · obtain ⟨h1, h2, h3⟩ := Joypad.afterReads_p2_state j hs hi2 k
    cases hr : ((j.afterReads PlayerId.P2 k).read PlayerId.P2)
    simp [Joypad.read, h1] at hr
    simp [← hr.1, h2, h3]

/-- C6 witness: the amended statement evaluated with only button B (bit 1)
pressed on port 1 and k = 9: the tenth read of each port returns bit 1 of
that port mask. -/
theorem joypad_reads_cycle_modulo_eight_witness :
    joypadB.strobe = false ∧ joypadB.button_idx_p1 = 0 ∧
    joypadB.button_idx_p2 = 0 ∧
    (((joypadB.afterReads PlayerId.P1 9).read PlayerId.P1).1 =
      (joypadB.button_p1 >>> (9 % 8)) &&& 1 ∧
     ((joypadB.afterReads PlayerId.P2 9).read PlayerId.P2).1 =
      (joypadB.button_p2 >>> (9 % 8)) &&& 1) :=
  ⟨rfl, rfl, rfl, joypad_reads_cycle_modulo_eight joypadB 9 rfl rfl rfl⟩

/-- C7: the predicate "enable flag clear implies counter = 0" is preserved
by every length-counter operation; the length-load write loads the table
entry only when the channel is enabled, clearing the enable bit forces the
counter to zero, and the half-frame tick decrements a non-zero non-halted
counter by one and never drops below the counter. -/
theorem length_counter_disabled_zero_invariant (lc : LengthCounter)
    (b e : Bool) (i : Fin 32) (h : lc.DisabledZero) :
    (lc.set_halt_flag b).DisabledZero ∧
    (lc.load_if_enabled_flag i).DisabledZero ∧
    (lc.set_enabled_flag e).DisabledZero ∧
    lc.on_half_frame.DisabledZero ∧
    (lc.enabled_flag = true →
      (lc.load_if_enabled_flag i).counter = LengthCounter.LENGTH_TABLE.getD i.val 0) ∧
    (lc.enabled_flag = false → (lc.load_if_enabled_flag i).counter = lc.counter) ∧
    (lc.set_enabled_flag false).counter = 0 ∧
    (lc.counter ≠ 0 → lc.halt_flag = false →
      lc.on_half_frame.counter = lc.counter - 1) ∧
    lc.on_half_frame.counter ≤ lc.counter := by
  obtain ⟨en, cnt, ha⟩ := lc
  simp only [LengthCounter.DisabledZero, LengthCounter.set_halt_flag,
    LengthCounter.load_if_enabled_flag, LengthCounter.set_enabled_flag,
    LengthCounter.on_half_frame] at h ⊢
  rcases cnt with _ | n <;> cases en <;> cases ha <;> cases e <;> simp_all

/-- C7 witness: the invariant-preservation statement applied to an enabled
channel with count 5 (half-frame conjunct shown). -/
theorem length_counter_disabled_zero_invariant_witness :
    lcEnabled.DisabledZero ∧ lcEnabled.on_half_frame.DisabledZero :=
  ⟨by decide,
   (length_counter_disabled_zero_invariant lcEnabled true false 3 (by decide)).2.2.2.1⟩

/-- C8: reading $2002 returns the current status byte, clears
VBLANK_STARTED (bit 7) and resets the write toggle, so an immediately
following read reports the VBLANK bit as 0. -/
theorem ppu_read_status_clears_vblank_and_toggle (p : Ppu) :
    (p.read_status).1 = p.status ∧
    Nat.testBit (p.read_status).2.status 7 = false ∧
    (p.read_status).2.scroll_addr.w = false ∧
    Nat.testBit ((p.read_status).2.read_status).1 7 = false := by
  have h7 : (0xff : Nat) ^^^ StatusRegister.VBLANK_STARTED = 127 := by decide
  have hbit : Nat.testBit 127 7 = false := by decide
  refine ⟨rfl, ?_, rfl, ?_⟩ <;>
    simp [Ppu.read_status, h7, Nat.testBit_and, hbit]

set_option maxHeartbeats 1600000 in
/-- C9: pushing the accumulator with PHA and popping it back with PLA
restores both A and SP, including when the push wraps SP modulo 256. -/
theorem cpu_pha_pla_restores_a_and_sp (c : Cpu)
    (hA : c.register_a < 256) (hS : c.stack_pointer < 256) :
    (c.pha.pla).register_a = c.register_a ∧
    (c.pha.pla).stack_pointer = c.stack_pointer := by
  have hsp : ((c.stack_pointer + 255) % 256 + 1) % 256 = c.stack_pointer := by omega
  have haddr : (STACK + c.stack_pointer) % 65536 = STACK + c.stack_pointer := by
    simp only [STACK]; omega
  have hle : STACK + c.stack_pointer ≤ 0x1fff := by
    simp only [STACK]; omega
  have hand : (STACK + c.stack_pointer) &&& 0x07ff = STACK + c.stack_pointer := by
    have h2 := Nat.and_pow_two_sub_one_eq_mod (STACK + c.stack_pointer) 11
    norm_num at h2
    simp only [STACK] at *
    omega
  simp only [Cpu.pha, Cpu.pla, Cpu.stack_push, Cpu.stack_pop, Cpu.mem_write,
    Cpu.mem_read, Cpu.update_zero_and_negative_flags, hsp, haddr, hand, hle,
    if_true, Function.update_same]
  exact ⟨by omega, trivial⟩

/-- C9 witness: the PHA/PLA round trip applied at a concrete CPU whose
stack pointer is 0, so the push wraps it to 0xff and the pop restores 0. -/
theorem cpu_pha_pla_restores_a_and_sp_witness :
    cpuStack.register_a < 256 ∧ cpuStack.stack_pointer < 256 ∧
    (cpuStack.pha.pla).register_a = cpuStack.register_a ∧
    (cpuStack.pha.pla).stack_pointer = cpuStack.stack_pointer :=
  ⟨by decide, by decide,
   (cpu_pha_pla_restores_a_and_sp cpuStack (by decide) (by decide)).1,
   (cpu_pha_pla_restores_a_and_sp cpuStack (by decide) (by decide)).2⟩

/-- C10: a $2007 write whose current VRAM address lies in pattern-table
space 0x0000-0x1FFF leaves CHR-ROM, nametable VRAM and palette RAM
unchanged, yet performs exactly the address increment an accepted write
would: coarse-X plus fine-Y during enabled rendering on a visible or
pre-render scanline, else the controller-selected step of 1 or 32. -/
theorem ppu_pattern_write_ignored_but_increments (p : Ppu) (data : Nat)
    (h : p.scroll_addr.get_addr ≤ 0x1fff) :
    (p.write_to_data data).chr_rom = p.chr_rom ∧
    (p.write_to_data data).vram = p.vram ∧
    (p.write_to_data data).palettes_ram = p.palettes_ram ∧
    (p.write_to_data data).scroll_addr = p.increment_vram_addr.scroll_addr ∧
    (p.rendering_enabled ∧ (p.scanline = 261 ∨ p.scanline ≤ 239) →
      (p.write_to_data data).scroll_addr =
        (p.scroll_addr.increment_x_in_v).increment_y_in_v) ∧
    (¬(p.rendering_enabled ∧ (p.scanline = 261 ∨ p.scanline ≤ 239)) →
      (p.write_to_data data).scroll_addr =
        p.scroll_addr.increment_addr (ControllerRegister.vram_addr_increment p.controller)) := by
  have hw : p.write_to_data data = p.increment_vram_addr := by
    simp [Ppu.write_to_data, h]
  rw [hw]
  refine ⟨?_, ?_, ?_, rfl, ?_, ?_⟩
  · unfold Ppu.increment_vram_addr; split <;> rfl
  · unfold Ppu.increment_vram_addr; split <;> rfl
  · unfold Ppu.increment_vram_addr; split <;> rfl
  · intro hc; simp [Ppu.increment_vram_addr, hc]
  · intro hc; simp [Ppu.increment_vram_addr, hc]

/-- C10 witness: the ignored-write statement applied at a PPU whose address
register holds 0x1000 (the VRAM part shown, with the increment-by-1 form of
the address step). -/
theorem ppu_pattern_write_ignored_but_increments_witness :
    ppuPattern.scroll_addr.get_addr ≤ 0x1fff ∧
    (ppuPattern.write_to_data 0xab).vram = ppuPattern.vram ∧
    (ppuPattern.write_to_data 0xab).scroll_addr =
      ppuPattern.scroll_addr.increment_addr
        (ControllerRegister.vram_addr_increment ppuPattern.controller) :=
  ⟨by decide,
   (ppu_pattern_write_ignored_but_increments ppuPattern 0xab (by decide)).2.1,
   (ppu_pattern_write_ignored_but_increments ppuPattern 0xab (by decide)).2.2.2.2.2
     (by decide)⟩

end Cnes
